import Mathlib

/-!
Shallow embedding of the slide-index state machine of `src/slider.js`
(class `Slider`): the slider state, the navigation operations
`changeSlide` (the public `goTo`), `nextSlide`, `previousSlide`, the
change protocol `#handleChangeSlide`, the auto-play firing handler
`#handleAutoPlay`, the drag mouseup handler, and the Pagination
plugin's `init`.

Modelling decisions:
* JS numbers holding slide indices and counts are modelled as `Int`
  (indices can go negative or out of range via `goTo`); pixel and
  time quantities (`spaceBetween`, `speed`, `distance`, slide width)
  are modelled as `ℚ`, since the drag logic only compares and divides
  them by 3.
* `$('.slider-slide').length` is re-read from the DOM on every call,
  so every operation takes the current `slideCount` as a parameter.
* The change protocol's observable effects (setting the CSS
  transition, setting the transform, and calling `plugin.change` on
  each registered plugin in registration order) are reified as a list
  of `Event`s returned next to the new state.  Plugins are identified
  by a `Nat` id; the built-in plugins' `change` callbacks do not
  mutate the slider, so the event trace is a faithful account.
-/

namespace SliderModel

/-- One observable effect of a slider operation: a CSS transition
update, a transform (offset) update, or a `change` call into the
registered plugin with the given id. -/
inductive Event where
  | setTransition
  | setTransform
  | pluginChange (id : Nat)
deriving DecidableEq, Repr

/-- The mutable state and configuration of a `Slider` instance, as set
up by the constructor of `src/slider.js` (fields `slidesPerView`,
`spaceBetween`, `speed`, `currentSlide`, `autoPlay`, `duration`,
`loop`, `plugins`).  `plugins` is the ordered registration list,
identified by ids. -/
structure Slider where
  slidesPerView : Int
  spaceBetween : ℚ
  speed : ℚ
  currentSlide : Int
  autoPlay : Bool
  duration : ℚ
  loop : Bool
  plugins : List Nat
deriving DecidableEq, Repr

/-- `Slider.#handleChangeSlide`: sets the transition, sets the
transform, then calls `plugin.change(this)` for every registered
plugin in registration order.  Returns the event trace. -/
def handleChangeSlide (s : Slider) : List Event :=
  Event.setTransition :: Event.setTransform :: s.plugins.map Event.pluginChange

/-- The plugin ids whose `change` callback an event trace invokes, in
order. -/
def pluginCalls (evs : List Event) : List Nat :=
  evs.filterMap fun e =>
    match e with
    | Event.pluginChange i => some i
    | _ => none

/-- `Slider.changeSlide(index)` (the public `goTo`): sets
`currentSlide = index` unconditionally, then runs the change
protocol. -/
def changeSlide (index : Int) (s : Slider) : Slider × List Event :=
  let t : Slider := { s with currentSlide := index }
  (t, handleChangeSlide t)

/-- `Slider.nextSlide()`: with `loop`, increments `currentSlide` when
`currentSlide < slideCount - slidesPerView`, else wraps to `0`;
without `loop`, increments only under the same condition.  Always
runs the change protocol. -/
def nextSlide (slideCount : Int) (s : Slider) : Slider × List Event :=
  let t : Slider :=
    if s.loop then
      if s.currentSlide < slideCount - s.slidesPerView then
        { s with currentSlide := s.currentSlide + 1 }
      else
        { s with currentSlide := 0 }
    else
      if s.currentSlide < slideCount - s.slidesPerView then
        { s with currentSlide := s.currentSlide + 1 }
      else
        s
  (t, handleChangeSlide t)

/-- `Slider.previousSlide()`: with `loop`, decrements `currentSlide`
when `currentSlide > 0`, else wraps to `slideCount - slidesPerView`;
without `loop`, decrements only under the same condition.  Always
runs the change protocol. -/
def previousSlide (slideCount : Int) (s : Slider) : Slider × List Event :=
  let t : Slider :=
    if s.loop then
      if s.currentSlide > 0 then
        { s with currentSlide := s.currentSlide - 1 }
      else
        { s with currentSlide := slideCount - s.slidesPerView }
    else
      if s.currentSlide > 0 then
        { s with currentSlide := s.currentSlide - 1 }
      else
        s
  (t, handleChangeSlide t)

/-- One firing of the `setTimeout` callback installed by
`Slider.#handleAutoPlay`: when `this.autoPlay` holds, it calls
`nextSlide` if `currentSlide < slideCount - slidesPerView` and
`changeSlide(0)` otherwise, then re-arms itself; when `this.autoPlay`
is false it does nothing and does not re-arm.  The `Bool` component
records whether the timer was rescheduled. -/
def handleAutoPlayFire (slideCount : Int) (s : Slider) : Slider × List Event × Bool :=
  match s.autoPlay with
  | true =>
    match (if s.currentSlide < slideCount - s.slidesPerView then
             nextSlide slideCount s
           else
             changeSlide 0 s) with
    | (t, evs) => (t, evs, true)
  | false => (s, [], false)

/-- The `$(window).mouseup` handler installed by `Slider.init` when
`draggable`: calls `nextSlide` when `distance > slideWidth / 3` and
(`loop` or `currentSlide < slideCount - slidesPerView`), else calls
`previousSlide` when `-distance > slideWidth / 3` and (`loop` or
`currentSlide > 0`), else only resets the transform (no transition,
no plugin calls).  `slideWidth` is `$('.slider-slide').outerWidth()`,
the on-screen width of one slide, to which `spaceBetween` is NOT
added for the threshold test. -/
def mouseupStep (distance slideWidth : ℚ) (slideCount : Int) (s : Slider) :
    Slider × List Event :=
  if distance > slideWidth / 3 ∧
      (s.loop = true ∨ s.currentSlide < slideCount - s.slidesPerView) then
    nextSlide slideCount s
  else if -distance > slideWidth / 3 ∧ (s.loop = true ∨ s.currentSlide > 0) then
    previousSlide slideCount s
  else
    (s, [Event.setTransform])

/-- `Slider.Pagination(...).init`: runs
`Array.from(Array(slideCount - slidesPerView + 1)).forEach(...)`,
appending one pagination marker per iteration.  Per JS semantics,
`Array(n)` with a negative `n` throws `RangeError: Invalid array
length`, modelled as `Except.error`; otherwise the markers appended
are modelled by their 1-based labels. -/
def paginationInit (slideCount : Int) (s : Slider) : Except String (List Nat) :=
  let n : Int := slideCount - s.slidesPerView + 1
  if n < 0 then
    Except.error "Invalid array length"
  else
    Except.ok ((List.range n.toNat).map fun i => i + 1)

/-- A navigation call issued against the slider: `nextSlide` or
`previousSlide`. -/
inductive Op where
  | next
  | prev
deriving DecidableEq, Repr

/-- Apply one navigation call, keeping only the state. -/
def applyOp (slideCount : Int) (s : Slider) (op : Op) : Slider :=
  match op with
  | Op.next => (nextSlide slideCount s).1
  | Op.prev => (previousSlide slideCount s).1

/-- Apply a sequence of navigation calls left to right. -/
def runOps (slideCount : Int) (s : Slider) (ops : List Op) : Slider :=
  ops.foldl (applyOp slideCount) s

/-- The number of pagination markers `Pagination.init` generates, when
it completes. -/
def markerCount (slideCount : Int) (s : Slider) : Option Nat :=
  (paginationInit slideCount s).toOption.map List.length

/-- A concrete non-loop slider with the source's default
configuration (`slidesPerView = 3, spaceBetween = 20, speed = 500,
duration = 5000`), two registered plugins, sitting at index 2.  Used
with `slideCount = 6`. -/
def sliderSixAtTwo : Slider :=
  { slidesPerView := 3, spaceBetween := 20, speed := 500, currentSlide := 2,
    autoPlay := false, duration := 5000, loop := false, plugins := [0, 1] }

/-- The spec scenario slider: `slidesPerView = 2, loop = true`, at the
last valid index 3 of a 5-slide view. -/
def sliderLoopAtThree : Slider :=
  { slidesPerView := 2, spaceBetween := 20, speed := 500, currentSlide := 3,
    autoPlay := false, duration := 5000, loop := true, plugins := [] }

/-- A non-loop slider with plugins 7 and 9 sitting at the upper bound
3 of a 6-slide view with `slidesPerView = 3`. -/
def sliderAtBound : Slider :=
  { slidesPerView := 3, spaceBetween := 20, speed := 500, currentSlide := 3,
    autoPlay := false, duration := 5000, loop := false, plugins := [7, 9] }

/-- A plain non-loop slider at index 0 with the default
configuration. -/
def sliderAtZero : Slider :=
  { slidesPerView := 3, spaceBetween := 20, speed := 500, currentSlide := 0,
    autoPlay := false, duration := 5000, loop := false, plugins := [] }

/-- `sliderAtZero` with `loop` switched on. -/
def sliderAtZeroLoop : Slider :=
  { sliderAtZero with loop := true }

/-- An auto-playing non-loop slider driven out of range to index 5 of
a 6-slide view (reachable through `changeSlide`). -/
def sliderAutoAtFive : Slider :=
  { slidesPerView := 3, spaceBetween := 20, speed := 500, currentSlide := 5,
    autoPlay := true, duration := 5000, loop := false, plugins := [] }

end SliderModel

namespace SliderModel

/-- C2: `nextSlide` increments `currentSlide` by exactly 1 when
`currentSlide < slideCount - slidesPerView`; otherwise it leaves it
unchanged without `loop` and sets it to `0` with `loop`; in every
case it emits the full change protocol (view update then one
`change` call per registered plugin, in registration order). -/
theorem nextSlide_spec (slideCount : Int) (s : Slider) :
    (nextSlide slideCount s).1.currentSlide =
      (if s.currentSlide < slideCount - s.slidesPerView then s.currentSlide + 1
       else if s.loop then 0 else s.currentSlide) ∧
    (nextSlide slideCount s).2 =
      Event.setTransition :: Event.setTransform :: s.plugins.map Event.pluginChange := by
  cases h : s.loop <;>
    by_cases hc : s.currentSlide < slideCount - s.slidesPerView <;>
      simp [nextSlide, handleChangeSlide, h, hc]

/-- C3: `previousSlide` decrements `currentSlide` by exactly 1 when
`currentSlide > 0`; otherwise it leaves it unchanged without `loop`
and sets it to `slideCount - slidesPerView` with `loop`; in every
case it emits the full change protocol. -/
theorem previousSlide_spec (slideCount : Int) (s : Slider) :
    (previousSlide slideCount s).1.currentSlide =
      (if s.currentSlide > 0 then s.currentSlide - 1
       else if s.loop then slideCount - s.slidesPerView else s.currentSlide) ∧
    (previousSlide slideCount s).2 =
      Event.setTransition :: Event.setTransform :: s.plugins.map Event.pluginChange := by
  cases h : s.loop <;>
    by_cases hc : s.currentSlide > 0 <;>
      simp [previousSlide, handleChangeSlide, h, hc]

/-- C5: `changeSlide` (the public `goTo`) sets `currentSlide` to the
given index unconditionally — no clamping, no error — and emits the
full change protocol: a view update followed by one `change` call per
registered plugin, in registration order. -/
theorem changeSlide_spec (index : Int) (s : Slider) :
    (changeSlide index s).1.currentSlide = index ∧
    (changeSlide index s).2 =
      Event.setTransition :: Event.setTransform :: s.plugins.map Event.pluginChange ∧
    pluginCalls (changeSlide index s).2 = s.plugins := by
  refine ⟨rfl, rfl, ?_⟩
  simp [changeSlide, handleChangeSlide, pluginCalls, List.filterMap_map]
  exact List.filterMap_some s.plugins

/-- Navigation calls never change the configuration fields `loop` and
`slidesPerView`. -/
theorem applyOp_config (slideCount : Int) (s : Slider) (op : Op) :
    (applyOp slideCount s op).loop = s.loop ∧
    (applyOp slideCount s op).slidesPerView = s.slidesPerView := by
  cases op <;>
    cases h : s.loop <;>
      simp [applyOp, nextSlide, previousSlide, h] <;> split <;> simp [h]

/-- One navigation call preserves the non-loop bounds invariant. -/
theorem applyOp_invariant (slideCount : Int) (s : Slider) (op : Op)
    (hl : s.loop = false)
    (h0 : 0 ≤ s.currentSlide)
    (h1 : s.currentSlide ≤ max 0 (slideCount - s.slidesPerView)) :
    0 ≤ (applyOp slideCount s op).currentSlide ∧
    (applyOp slideCount s op).currentSlide ≤ max 0 (slideCount - s.slidesPerView) := by
  cases op <;> simp [applyOp, nextSlide, previousSlide, hl] <;> split <;> (try simp) <;> omega

/-- C1: for every non-loop slider whose `currentSlide` lies in
`[0, max 0 (slideCount - slidesPerView)]`, any sequence of
`nextSlide` and `previousSlide` calls keeps `currentSlide` in that
interval: no `nextSlide` pushes it above
`max 0 (slideCount - slidesPerView)` and no `previousSlide` pushes it
below `0`. -/
theorem nonLoop_invariant (slideCount : Int) (s : Slider) (ops : List Op)
    (hl : s.loop = false)
    (h0 : 0 ≤ s.currentSlide)
    (h1 : s.currentSlide ≤ max 0 (slideCount - s.slidesPerView)) :
    0 ≤ (runOps slideCount s ops).currentSlide ∧
    (runOps slideCount s ops).currentSlide ≤ max 0 (slideCount - s.slidesPerView) := by
  induction ops generalizing s with
  | nil => exact ⟨h0, h1⟩
  | cons op ops ih =>
    have hc := applyOp_config slideCount s op
    have hstep := applyOp_invariant slideCount s op hl h0 h1
    have hrec := ih (applyOp slideCount s op) (by rw [hc.1]; exact hl) hstep.1
      (by rw [hc.2]; exact hstep.2)
    rw [hc.2] at hrec
    simpa [runOps, List.foldl_cons] using hrec

/-- C1 witness: a concrete non-loop slider (`slideCount = 6`,
`slidesPerView = 3`) starting at index 2, driven through a concrete
sequence of calls, stays in `[0, 3]`. -/
theorem nonLoop_invariant_witness :
    (sliderSixAtTwo.loop = false ∧
     0 ≤ sliderSixAtTwo.currentSlide ∧
     sliderSixAtTwo.currentSlide ≤ max 0 (6 - sliderSixAtTwo.slidesPerView)) ∧
    (0 ≤ (runOps 6 sliderSixAtTwo
        [Op.next, Op.next, Op.next, Op.prev]).currentSlide ∧
     (runOps 6 sliderSixAtTwo
        [Op.next, Op.next, Op.next, Op.prev]).currentSlide ≤
       max 0 (6 - sliderSixAtTwo.slidesPerView)) :=
  ⟨⟨rfl, by decide, by decide⟩,
   nonLoop_invariant 6 sliderSixAtTwo [Op.next, Op.next, Op.next, Op.prev]
     rfl (by decide) (by decide)⟩

/-- C4: with `loop`, for every non-negative `slideCount` and every
starting `currentSlide` in `[0, slideCount - slidesPerView]`, both
`nextSlide` and `previousSlide` land back inside
`[0, slideCount - slidesPerView]`. -/
theorem loop_wraparound_bounds (slideCount : Int) (s : Slider)
    (hl : s.loop = true)
    (_hc : 0 ≤ slideCount)
    (h0 : 0 ≤ s.currentSlide)
    (h1 : s.currentSlide ≤ slideCount - s.slidesPerView) :
    (0 ≤ (nextSlide slideCount s).1.currentSlide ∧
     (nextSlide slideCount s).1.currentSlide ≤ slideCount - s.slidesPerView) ∧
    (0 ≤ (previousSlide slideCount s).1.currentSlide ∧
     (previousSlide slideCount s).1.currentSlide ≤ slideCount - s.slidesPerView) := by
  constructor <;> simp [nextSlide, previousSlide, hl] <;> split <;> simp <;> omega

/-- C4 witness: the spec scenario `slideCount = 5, slidesPerView = 2,
loop = true`, starting at the last valid index 3: both calls land in
`[0, 3]`. -/
theorem loop_wraparound_bounds_witness :
    (sliderLoopAtThree.loop = true ∧
     (0 : Int) ≤ 5 ∧
     0 ≤ sliderLoopAtThree.currentSlide ∧
     sliderLoopAtThree.currentSlide ≤ 5 - sliderLoopAtThree.slidesPerView) ∧
    ((0 ≤ (nextSlide 5 sliderLoopAtThree).1.currentSlide ∧
      (nextSlide 5 sliderLoopAtThree).1.currentSlide ≤
        5 - sliderLoopAtThree.slidesPerView) ∧
     (0 ≤ (previousSlide 5 sliderLoopAtThree).1.currentSlide ∧
      (previousSlide 5 sliderLoopAtThree).1.currentSlide ≤
        5 - sliderLoopAtThree.slidesPerView)) :=
  ⟨⟨rfl, by decide, by decide, by decide⟩,
   loop_wraparound_bounds 5 sliderLoopAtThree rfl (by decide) (by decide) (by decide)⟩

/-- C6: without `loop`, calling `nextSlide` at the upper bound
`currentSlide = slideCount - slidesPerView` leaves `currentSlide`
unchanged, yet the event trace still invokes every registered
plugin's `change` exactly once, in registration order. -/
theorem nextSlide_at_bound_idempotent (slideCount : Int) (s : Slider)
    (hl : s.loop = false)
    (hb : s.currentSlide = slideCount - s.slidesPerView) :
    (nextSlide slideCount s).1.currentSlide = s.currentSlide ∧
    pluginCalls (nextSlide slideCount s).2 = s.plugins := by
  have hnot : ¬ s.currentSlide < slideCount - s.slidesPerView := by omega
  constructor
  · simp [nextSlide, hl, hnot]
  · simp [nextSlide, hl, hnot, handleChangeSlide, pluginCalls, List.filterMap_map]
    exact List.filterMap_some s.plugins

/-- C6 witness: `slideCount = 6, slidesPerView = 3`, non-loop slider
with two registered plugins sitting at the bound 3: `nextSlide` keeps
index 3 and calls plugins 7 then 9, once each. -/
theorem nextSlide_at_bound_idempotent_witness :
    (sliderAtBound.loop = false ∧
     sliderAtBound.currentSlide = 6 - sliderAtBound.slidesPerView) ∧
    ((nextSlide 6 sliderAtBound).1.currentSlide = sliderAtBound.currentSlide ∧
     pluginCalls (nextSlide 6 sliderAtBound).2 = sliderAtBound.plugins) :=
  ⟨⟨rfl, by decide⟩, nextSlide_at_bound_idempotent 6 sliderAtBound rfl (by decide)⟩

/-- C10: whenever `slideCount ≤ slidesPerView - 2` (so that
`slideCount - slidesPerView + 1` is negative), `Pagination.init`
fails with the invalid-array-length error instead of generating zero
markers. -/
theorem paginationInit_negative_error (slideCount : Int) (s : Slider)
    (h : slideCount ≤ s.slidesPerView - 2) :
    paginationInit slideCount s = Except.error "Invalid array length" := by
  have hn : slideCount - s.slidesPerView + 1 < 0 := by omega
  simp [paginationInit, hn]

/-- C10 witness: `slideCount = 0, slidesPerView = 3` (so the computed
length is `-2`): `Pagination.init` errors. -/
theorem paginationInit_negative_error_witness :
    ((0 : Int) ≤ sliderAtZero.slidesPerView - 2) ∧
    paginationInit 0 sliderAtZero = Except.error "Invalid array length" :=
  ⟨by decide, paginationInit_negative_error 0 sliderAtZero (by decide)⟩

/-- C7 counterexample: at `slideCount = 0, slidesPerView = 3` the
claimed marker count `slideCount - slidesPerView + 1 = -2` is not
generated: `Pagination.init` errors out and produces no marker list
at all, for either value of `loop`. -/
theorem paginationInit_count_counterexample :
    paginationInit 0 sliderAtZero = Except.error "Invalid array length" ∧
    paginationInit 0 sliderAtZeroLoop = Except.error "Invalid array length" := by
  constructor <;> rfl

/-- C7 (amended): whenever `slideCount - slidesPerView + 1` is
non-negative, `Pagination.init` generates exactly
`slideCount - slidesPerView + 1` markers, and the count is the same
whether `loop` is true or false (the computation never reads
`loop`). -/
theorem paginationInit_marker_count (slideCount : Int) (s : Slider) (b : Bool)
    (h : 0 ≤ slideCount - s.slidesPerView + 1) :
    markerCount slideCount s = some (slideCount - s.slidesPerView + 1).toNat ∧
    markerCount slideCount { s with loop := b } = markerCount slideCount s := by
  have hn : ¬ slideCount - s.slidesPerView + 1 < 0 := by omega
  constructor <;> simp [markerCount, paginationInit, hn, Except.toOption]

/-- C7 witness: `slideCount = 6, slidesPerView = 3` gives 4 markers,
the same with `loop` flipped. -/
theorem paginationInit_marker_count_witness :
    ((0 : Int) ≤ 6 - sliderAtZero.slidesPerView + 1) ∧
    (markerCount 6 sliderAtZero =
      some ((6 - sliderAtZero.slidesPerView + 1 : Int)).toNat ∧
     markerCount 6 { sliderAtZero with loop := true } = markerCount 6 sliderAtZero) :=
  ⟨by decide, paginationInit_marker_count 6 sliderAtZero true (by decide)⟩

/-- C8 counterexample: a slider with `autoPlay` on, `loop = false`,
`currentSlide = 5`, `slideCount = 6`, `slidesPerView = 3`: it is not
at the last valid non-loop index (`5 ≠ 3`), so the claim prescribes a
`next()` call, which would leave `currentSlide = 5`; the code instead
takes the `changeSlide(0)` branch, yielding `currentSlide = 0`. -/
theorem handleAutoPlayFire_counterexample :
    sliderAutoAtFive.autoPlay = true ∧
    sliderAutoAtFive.currentSlide ≠ 6 - sliderAutoAtFive.slidesPerView ∧
    (handleAutoPlayFire 6 sliderAutoAtFive).1.currentSlide = 0 ∧
    (nextSlide 6 sliderAutoAtFive).1.currentSlide = sliderAutoAtFive.currentSlide :=
  ⟨rfl, by decide, by decide, by decide⟩

/-- C8 (amended): on a firing with `autoPlay` off, nothing happens and
the timer is not rescheduled; with `autoPlay` on, the handler behaves
as `nextSlide` when `currentSlide` is strictly below
`slideCount - slidesPerView` and as `changeSlide 0` otherwise
(resetting to index 0 regardless of `loop`), and reschedules. -/
theorem handleAutoPlayFire_spec (slideCount : Int) (s : Slider) :
    handleAutoPlayFire slideCount s =
      if s.autoPlay then
        if s.currentSlide < slideCount - s.slidesPerView then
          ((nextSlide slideCount s).1, (nextSlide slideCount s).2, true)
        else
          ((changeSlide 0 s).1, (changeSlide 0 s).2, true)
      else (s, [], false) := by
  cases h : s.autoPlay
  · simp [handleAutoPlayFire, h]
  · by_cases hc : s.currentSlide < slideCount - s.slidesPerView <;>
      simp [handleAutoPlayFire, h, hc]

/-- C9 counterexample: the claim measures the threshold against
`slideExtent / 3` with `slideExtent` "including `spaceBetween`", i.e.
`(300 + 20) / 3` here, which `distance = 105` does not exceed, so the
claim prescribes a snap-back leaving `currentSlide = 0`; the code
compares against `slideWidth / 3 = 100` without `spaceBetween`, so it
calls `next()` and yields `currentSlide = 1`. -/
theorem mouseupStep_counterexample :
    ¬ ((105 : ℚ) > (300 + sliderAtZero.spaceBetween) / 3) ∧
    sliderAtZero.currentSlide = 0 ∧
    (mouseupStep 105 300 6 sliderAtZero).1.currentSlide = 1 := by
  refine ⟨?_, rfl, ?_⟩
  · show ¬ ((105 : ℚ) > (300 + 20) / 3)
    norm_num
  · have hcond : (105 : ℚ) > 300 / 3 ∧
        (sliderAtZero.loop = true ∨
          sliderAtZero.currentSlide < 6 - sliderAtZero.slidesPerView) := by
      constructor
      · norm_num
      · right
        decide
    unfold mouseupStep
    rw [if_pos hcond]
    decide

/-- C9 (amended): on pointer-up, `next()` is called when
`distance > slideWidth / 3` and (`loop`, or `currentSlide` below the
last valid index), where `slideWidth` is the on-screen size of one
slide NOT including `spaceBetween`; failing that, `previous()` is
called when `-distance > slideWidth / 3` and (`loop`, or
`currentSlide > 0`); otherwise the view snaps back with
`currentSlide` unchanged and no plugin `change` call. -/
theorem mouseupStep_spec (distance slideWidth : ℚ) (slideCount : Int) (s : Slider) :
    ((distance > slideWidth / 3 ∧
        (s.loop = true ∨ s.currentSlide < slideCount - s.slidesPerView)) →
      mouseupStep distance slideWidth slideCount s = nextSlide slideCount s) ∧
    (¬ (distance > slideWidth / 3 ∧
        (s.loop = true ∨ s.currentSlide < slideCount - s.slidesPerView)) →
      (-distance > slideWidth / 3 ∧ (s.loop = true ∨ s.currentSlide > 0)) →
      mouseupStep distance slideWidth slideCount s = previousSlide slideCount s) ∧
    (¬ (distance > slideWidth / 3 ∧
        (s.loop = true ∨ s.currentSlide < slideCount - s.slidesPerView)) →
      ¬ (-distance > slideWidth / 3 ∧ (s.loop = true ∨ s.currentSlide > 0)) →
      (mouseupStep distance slideWidth slideCount s).1 = s ∧
      pluginCalls (mouseupStep distance slideWidth slideCount s).2 = []) := by
  refine ⟨fun h1 => ?_, fun h1 h2 => ?_, fun h1 h2 => ?_⟩
  · simp [mouseupStep, h1]
  · simp [mouseupStep, h1, h2]
  · simp [mouseupStep, h1, h2, pluginCalls]

/-- C9 witness: the spec scenario — `distance = 150`,
`slideWidth = 300`, `slideCount = 6`, non-loop slider at index 0 with
`slidesPerView = 3`: the threshold `300 / 3 = 100` is exceeded and the
slider is below the last valid index, so pointer-up behaves as
`nextSlide`, yielding index 1. -/
theorem mouseupStep_spec_witness :
    ((150 : ℚ) > 300 / 3 ∧
      (sliderAtZero.loop = true ∨
        sliderAtZero.currentSlide < 6 - sliderAtZero.slidesPerView)) ∧
    (mouseupStep 150 300 6 sliderAtZero = nextSlide 6 sliderAtZero ∧
     (nextSlide 6 sliderAtZero).1.currentSlide = 1) :=
  ⟨⟨by norm_num, Or.inr (by decide)⟩,
   (mouseupStep_spec 150 300 6 sliderAtZero).1
     ⟨by norm_num, Or.inr (by decide)⟩,
   by decide⟩

end SliderModel
